import Mathlib

/-!
Shallow embedding of the core control logic of the traffic-signal-simulation
repository: `logic.py` (TrafficSignalController), `emergency.py`
(EmergencyController) and `multi_junction.py` (MultiJunctionController).

Python `float` arithmetic in `calculate_green_time` is modelled exactly over
`ℚ`; Python `int(x)` (truncation toward zero) is modelled by `pyInt`.
Python dictionaries with the fixed four lane keys are modelled by four
record fields, and iteration follows the source's insertion order.
Operations that can raise in Python (`list.index` on a missing element)
return `Option`.
-/

namespace TrafficSim

/-- Python's builtin `int()` on a rational value: truncation toward zero. -/
def pyInt (q : ℚ) : Int := if 0 ≤ q then ⌊q⌋ else -⌊-q⌋

/-- Signal colours; `logic.py` models no amber state. -/
inductive Signal
  | GREEN
  | RED
deriving DecidableEq, Repr

/-- Configuration constant `self.min_green_time = 10` of `logic.py`. -/
def min_green_time : ℚ := 10

/-- Configuration constant `self.max_green_time = 60` of `logic.py`. -/
def max_green_time : ℚ := 60

/-- Configuration constant `self.base_green_time = 20` of `logic.py`. -/
def base_green_time : Int := 20

/-- The state of `TrafficSignalController` (`logic.py`): the `self.lanes`
dict has the four fixed keys North, South, East, West (insertion order),
each holding a vehicle count; plus `current_lane`, `cycle_counter` and
`simulation_running`. -/
structure TrafficSignalController where
  vNorth : Nat
  vSouth : Nat
  vEast : Nat
  vWest : Nat
  current_lane : String
  cycle_counter : Nat
  simulation_running : Bool
deriving DecidableEq, Repr

/-- `TrafficSignalController.__init__`: all counts 0, North green, cycle 0. -/
def initController : TrafficSignalController :=
  { vNorth := 0, vSouth := 0, vEast := 0, vWest := 0,
    current_lane := "North", cycle_counter := 0, simulation_running := false }

/-- The `self.lanes` dict keys in insertion order (North, South, East, West). -/
def lane_names : List String := ["North", "South", "East", "West"]

/-- Vehicle count of a lane (dict lookup on the four fixed keys). -/
def getVehicles (c : TrafficSignalController) (lane : String) : Nat :=
  if lane = "North" then c.vNorth
  else if lane = "South" then c.vSouth
  else if lane = "East" then c.vEast
  else c.vWest

/-- `self.lanes.items()` in insertion order, projected to vehicle counts. -/
def lanes_items (c : TrafficSignalController) : List (String × Nat) :=
  [("North", c.vNorth), ("South", c.vSouth), ("East", c.vEast), ("West", c.vWest)]

/-- `set_vehicle_count`: if the lane is a known key, store `max(0, count)`
(on `Int`, that is `Int.toNat`); otherwise do nothing. -/
def set_vehicle_count (c : TrafficSignalController) (lane : String) (count : Int) :
    TrafficSignalController :=
  if lane = "North" then { c with vNorth := count.toNat }
  else if lane = "South" then { c with vSouth := count.toNat }
  else if lane = "East" then { c with vEast := count.toNat }
  else if lane = "West" then { c with vWest := count.toNat }
  else c

/-- `calculate_congestion_level`: `<10` Low, `<=30` Medium, else High. -/
def calculate_congestion_level (vehicle_count : Nat) : String :=
  if vehicle_count < 10 then "Low"
  else if vehicle_count ≤ 30 then "Medium"
  else "High"

/-- `calculate_green_time` of `logic.py`.  With `total_vehicles == 0` it
returns `base_green_time`; otherwise it computes
`(vehicle_count / total_vehicles) * (base_green_time * 4)` over the
rationals (the inner `if total_vehicles > 0` of the source is always true
on this branch), clamps with `max(min_green_time, min(_, max_green_time))`
and applies `int()`. -/
def calculate_green_time (vehicle_count total_vehicles : Nat) : Int :=
  if total_vehicles = 0 then base_green_time
  else
    let total_cycle_time : ℚ := (base_green_time : ℚ) * 4
    let proportional_time : ℚ :=
      ((vehicle_count : ℚ) / (total_vehicles : ℚ)) * total_cycle_time
    let green_time : ℚ := max min_green_time (min proportional_time max_green_time)
    pyInt green_time

/-- `lane_order` of `get_next_lane`: the rotation order (East follows North). -/
def lane_order : List String := ["North", "East", "South", "West"]

/-- Python `list.index`, returning `none` where Python raises `ValueError`. -/
def py_index : List String → String → Option Nat
  | [], _ => none
  | y :: ys, x => if y = x then some 0 else (py_index ys x).map (· + 1)

/-- `get_next_lane` as a function of the current lane: look the lane up in
`lane_order` and step to the cyclic successor. -/
def get_next_lane_of (current_lane : String) : Option String :=
  (py_index lane_order current_lane).map
    (fun i => lane_order.getD ((i + 1) % lane_order.length) "")

/-- `get_next_lane` of `logic.py` (raises, i.e. `none`, on an unknown lane). -/
def get_next_lane (c : TrafficSignalController) : Option String :=
  get_next_lane_of c.current_lane

/-- Python `max(items, key=lambda x: x[1]['vehicles'])`: fold keeping the
current maximum, replacing it only on a strictly larger key, so the first
maximal element wins ties. -/
def pyMaxBy (l : List (String × Nat)) : Option (String × Nat) :=
  l.foldl
    (fun acc x =>
      match acc with
      | none => some x
      | some a => if a.2 < x.2 then some x else some a)
    none

/-- `get_most_congested_lane`: lane of maximal vehicle count, first in the
dict's insertion order on ties. -/
def get_most_congested_lane (c : TrafficSignalController) : String × Nat :=
  (pyMaxBy (lanes_items c)).getD ("", 0)

/-- `sum(lane['vehicles'] for lane in self.lanes.values())`. -/
def total_vehicles (c : TrafficSignalController) : Nat :=
  c.vNorth + c.vSouth + c.vEast + c.vWest

/-- One entry of the `signal_state` dict built by `get_signal_state`. -/
structure LaneState where
  vehicles : Nat
  signal : Signal
  green_time : Int
  congestion : String
deriving DecidableEq, Repr

/-- `get_signal_state`: for each lane (insertion order) report vehicles,
GREEN iff the lane is `current_lane`, the computed green time, and the
congestion level. -/
def get_signal_state (c : TrafficSignalController) : List (String × LaneState) :=
  (lanes_items c).map
    (fun p =>
      (p.1,
        { vehicles := p.2,
          signal := if p.1 = c.current_lane then Signal.GREEN else Signal.RED,
          green_time := calculate_green_time p.2 (total_vehicles c),
          congestion := calculate_congestion_level p.2 }))

/-- `advance_signal`: move `current_lane` to the next lane in rotation,
increment `cycle_counter`, and return the new signal state alongside the
new controller state (`none` when `list.index` would raise). -/
def advance_signal (c : TrafficSignalController) :
    Option (TrafficSignalController × List (String × LaneState)) :=
  (get_next_lane c).map
    (fun nl =>
      let c' := { c with current_lane := nl, cycle_counter := c.cycle_counter + 1 }
      (c', get_signal_state c'))

/-- `reset`: back to North, cycle 0, all counts 0. -/
def reset (c : TrafficSignalController) : TrafficSignalController :=
  { c with current_lane := "North", cycle_counter := 0, simulation_running := false,
           vNorth := 0, vSouth := 0, vEast := 0, vWest := 0 }

/-- `n` successive calls of `advance_signal`, tracking the controller state. -/
def advanceN : Nat → TrafficSignalController → Option TrafficSignalController
  | 0, c => some c
  | n + 1, c => (advanceN n c).bind (fun c' => (advance_signal c').map Prod.fst)

/-- Maximum vehicle count over the four lanes. -/
def max_vehicles (c : TrafficSignalController) : Nat :=
  max (max c.vNorth c.vSouth) (max c.vEast c.vWest)

/-- The state of `EmergencyController` (`emergency.py`), minus the wrapped
controller reference, which the combined `System` below holds. -/
structure EmergencyController where
  emergency_active : Bool
  emergency_lane : Option String
  emergency_type : Option String
  emergency_start_time : Option Int
  override_duration : Int
deriving DecidableEq, Repr

/-- `EmergencyController.__init__`. -/
def initEmergency : EmergencyController :=
  { emergency_active := false, emergency_lane := none, emergency_type := none,
    emergency_start_time := none, override_duration := 30 }

/-- The keys of the `EMERGENCY_TYPES` dict. -/
def EMERGENCY_TYPES : List String := ["ambulance", "fire_truck", "police"]

/-- The `duration` entry of `EMERGENCY_TYPES` for a valid vehicle type. -/
def emergency_duration (vehicle_type : String) : Int :=
  if vehicle_type = "ambulance" then 30
  else if vehicle_type = "fire_truck" then 40
  else 25

/-- `detect_emergency_vehicle`: reject (returning `false`, state untouched)
any vehicle type outside `EMERGENCY_TYPES`; otherwise activate the
override, store the lane (unvalidated) and type, zero the timer and load
the type-specific duration. -/
def detect_emergency_vehicle (em : EmergencyController) (lane vehicle_type : String) :
    Bool × EmergencyController :=
  if vehicle_type ∈ EMERGENCY_TYPES then
    (true,
      { emergency_active := true, emergency_lane := some lane,
        emergency_type := some vehicle_type, emergency_start_time := some 0,
        override_duration := emergency_duration vehicle_type })
  else (false, em)

/-- `clear_emergency`: deactivate and null out all emergency fields
(`override_duration` keeps its last value, as in the source). -/
def clear_emergency (em : EmergencyController) : EmergencyController :=
  { em with emergency_active := false, emergency_lane := none,
            emergency_type := none, emergency_start_time := none }

/-- `update_emergency_timer`: when active, record the caller-supplied
elapsed seconds, then clear the emergency if the duration is reached;
when inactive, do nothing. -/
def update_emergency_timer (em : EmergencyController) (elapsed_seconds : Int) :
    EmergencyController :=
  if em.emergency_active then
    let em' := { em with emergency_start_time := some elapsed_seconds }
    if em.override_duration ≤ elapsed_seconds then clear_emergency em' else em'
  else em

/-- Python truthiness of the stored lane: `None` and `""` are falsy. -/
def laneTruthy : Option String → Bool
  | none => false
  | some l => !(l = "")

/-- An `EmergencyController` together with the `TrafficSignalController` it
wraps by reference. -/
structure System where
  controller : TrafficSignalController
  emergency : EmergencyController
deriving DecidableEq, Repr

/-- The initial system: fresh controller, fresh emergency controller. -/
def initSystem : System :=
  { controller := initController, emergency := initEmergency }

/-- `override_signal_for_emergency`: if the override is inactive or the
stored lane is falsy (`if not self.emergency_active or not
self.emergency_lane`), return `None` and change nothing; otherwise force
`current_lane` to the emergency lane and return the resulting signal
state. -/
def override_signal_for_emergency (s : System) :
    Option (List (String × LaneState)) × System :=
  if s.emergency.emergency_active = true ∧ laneTruthy s.emergency.emergency_lane = true then
    match s.emergency.emergency_lane with
    | some l =>
        let c' := { s.controller with current_lane := l }
        (some (get_signal_state c'), { s with controller := c' })
    | none => (none, s)
  else (none, s)

/-- One mutating operation of the combined controller/emergency system as
exposed by `logic.py` and `emergency.py`; arguments are unrestricted, as
for the Python caller (an `advance_signal` call that would raise
`ValueError` contributes no step). -/
inductive Step : System → System → Prop
  | set_count (s : System) (lane : String) (count : Int) :
      Step s { s with controller := set_vehicle_count s.controller lane count }
  | advance (s : System) (c' : TrafficSignalController) (r : List (String × LaneState)) :
      advance_signal s.controller = some (c', r) →
      Step s { s with controller := c' }
  | reset_op (s : System) :
      Step s { s with controller := reset s.controller }
  | detect (s : System) (lane vehicle_type : String) :
      Step s { s with emergency := (detect_emergency_vehicle s.emergency lane vehicle_type).2 }
  | override (s : System) :
      Step s (override_signal_for_emergency s).2
  | update_timer (s : System) (elapsed_seconds : Int) :
      Step s { s with emergency := update_emergency_timer s.emergency elapsed_seconds }
  | clear (s : System) :
      Step s { s with emergency := clear_emergency s.emergency }

/-- States reachable from the initial system by any operation sequence. -/
def Reachable (s : System) : Prop :=
  Relation.ReflTransGen Step initSystem s

/-- Like `Step`, but `detect_emergency_vehicle` is only invoked with one of
the four canonical lane names. -/
inductive ValidStep : System → System → Prop
  | set_count (s : System) (lane : String) (count : Int) :
      ValidStep s { s with controller := set_vehicle_count s.controller lane count }
  | advance (s : System) (c' : TrafficSignalController) (r : List (String × LaneState)) :
      advance_signal s.controller = some (c', r) →
      ValidStep s { s with controller := c' }
  | reset_op (s : System) :
      ValidStep s { s with controller := reset s.controller }
  | detect (s : System) (lane vehicle_type : String) :
      lane ∈ lane_order →
      ValidStep s
        { s with emergency := (detect_emergency_vehicle s.emergency lane vehicle_type).2 }
  | override (s : System) :
      ValidStep s (override_signal_for_emergency s).2
  | update_timer (s : System) (elapsed_seconds : Int) :
      ValidStep s { s with emergency := update_emergency_timer s.emergency elapsed_seconds }
  | clear (s : System) :
      ValidStep s { s with emergency := clear_emergency s.emergency }

/-- States reachable when emergencies are only reported on canonical lanes. -/
def ReachableValid (s : System) : Prop :=
  Relation.ReflTransGen ValidStep initSystem s

/-- The lane-validity invariant: the controller's current lane is canonical
and any stored emergency lane is canonical. -/
def LanesValid (s : System) : Prop :=
  s.controller.current_lane ∈ lane_order ∧
  ∀ l, s.emergency.emergency_lane = some l → l ∈ lane_order

/-- The emergency-timer invariant: while active the recorded elapsed time
never exceeds the override duration, and while inactive all emergency
fields are cleared. -/
def EmergencyInv (em : EmergencyController) : Prop :=
  (em.emergency_active = true →
    ∃ t, em.emergency_start_time = some t ∧ t ≤ em.override_duration) ∧
  (em.emergency_active = false →
    em.emergency_lane = none ∧ em.emergency_type = none ∧
      em.emergency_start_time = none)

/-- Number of GREEN entries in a signal-state snapshot. -/
def count_green (st : List (String × LaneState)) : Nat :=
  (st.filter (fun p => p.2.signal = Signal.GREEN)).length

/-- Number of RED entries in a signal-state snapshot. -/
def count_red (st : List (String × LaneState)) : Nat :=
  (st.filter (fun p => p.2.signal = Signal.RED)).length

/-- The fixed junction display names of `multi_junction.py`. -/
def junction_names : List String := ["Downtown", "Midtown", "Uptown", "Suburb"]

/-- One entry of the `self.junctions` dict of `MultiJunctionController`. -/
structure Junction where
  name : String
  controller : TrafficSignalController
  total_vehicles : Nat
  efficiency_score : ℚ
  active : Bool
deriving DecidableEq, Repr

/-- The state of `MultiJunctionController` (`multi_junction.py`); the
`junctions` dict is keyed by consecutive indices `0 .. n-1`, so a list
models it with position as key. -/
structure MultiJunctionController where
  num_junctions : Int
  junctions : List Junction
  active_junction : Nat
  coordination_mode : String
  total_vehicle_capacity : Nat
deriving DecidableEq, Repr

/-- `MultiJunctionController.__init__`: clamp the requested count with
`max(2, min(num_junctions, 4))` and create that many junctions, each with
a fresh `TrafficSignalController` and the display name taken by index from
`junction_names`. -/
def MultiJunctionController.make (num_junctions : Int) : MultiJunctionController :=
  let n := max 2 (min num_junctions 4)
  { num_junctions := n,
    junctions := (List.range n.toNat).map
      (fun i =>
        { name := junction_names.getD i "", controller := initController,
          total_vehicles := 0, efficiency_score := 0, active := true }),
    active_junction := 0,
    coordination_mode := "independent",
    total_vehicle_capacity := 100 }

/-- The clamped proportional time is at least 10, hence nonnegative, so the
source's `int()` truncation coincides with the floor. -/
lemma calculate_green_time_eq (vehicle_count total_vehicles : Nat) :
    calculate_green_time vehicle_count total_vehicles =
      if total_vehicles = 0 then 20
      else ⌊max 10 (min (((vehicle_count : ℚ) / (total_vehicles : ℚ)) * 80) 60)⌋ := by
  unfold calculate_green_time
  split
  · rfl
  · have h10 : (0 : ℚ) ≤ max min_green_time
        (min (((vehicle_count : ℚ) / (total_vehicles : ℚ)) * ((base_green_time : ℚ) * 4))
          max_green_time) := by
      have := le_max_left min_green_time
        (min (((vehicle_count : ℚ) / (total_vehicles : ℚ)) * ((base_green_time : ℚ) * 4))
          max_green_time)
      have hm : (0 : ℚ) ≤ min_green_time := by norm_num [min_green_time]
      linarith
    simp only [pyInt, if_pos h10]
    norm_num [min_green_time, max_green_time, base_green_time]

/-- C1: for vehicle count `v` and total `t`, `calculate_green_time` returns
the base green time 20 when `t = 0`, and otherwise the floor of the
proportional share `(v / t) * 80` of the 80-second cycle budget clamped to
`[10, 60]` (truncation toward zero agrees with the floor here since the
clamped value is positive). -/
theorem calculate_green_time_spec (v t : Nat) :
    calculate_green_time v t =
      if t = 0 then 20
      else ⌊max 10 (min (((v : ℚ) / (t : ℚ)) * 80) 60)⌋ :=
  calculate_green_time_eq v t

/-- C3: `advance_signal` rotates `current_lane` in the fixed order
North → East → South → West → North: after `n` calls from the initial state
the current lane is `lane_order[n % 4]` (so four successive calls yield
East, South, West, North and the sequence has period exactly 4), the
`cycle_counter` after `n` calls is `n`, and every single call increments
`cycle_counter` by exactly 1. -/
theorem rotation_order_spec :
    (∀ n, advanceN n initController =
        some { initController with current_lane := lane_order.getD (n % 4) "",
                                   cycle_counter := n }) ∧
    (∀ c c' r, advance_signal c = some (c', r) →
        c'.cycle_counter = c.cycle_counter + 1) := by
  constructor
  · intro n
    induction n with
    | zero => rfl
    | succ n ih =>
      have h4 : n % 4 = 0 ∨ n % 4 = 1 ∨ n % 4 = 2 ∨ n % 4 = 3 := by omega
      have h5 : (n + 1) % 4 = (n % 4 + 1) % 4 := by omega
      rcases h4 with h | h | h | h <;> (rw [advanceN, ih, h5, h]; rfl)
  · intro c c' r h
    rw [advance_signal, Option.map_eq_some'] at h
    obtain ⟨nl, _, hf⟩ := h
    obtain ⟨h1, _⟩ := Prod.mk.injEq .. |>.mp hf
    rw [← h1]

/-- Witness for C3 at the initial state: one call of `advance_signal` moves
the green lane to East and the cycle counter to 1. -/
theorem rotation_order_spec_witness :
    (advance_signal initController).map (fun p => p.1.current_lane) = some "East" ∧
    (advance_signal initController).map (fun p => p.1.cycle_counter) = some 1 := by
  have h1 : (advance_signal initController).map Prod.fst =
      some { initController with current_lane := lane_order.getD (1 % 4) "",
                                 cycle_counter := 1 } :=
    rotation_order_spec.1 1
  cases hg : advance_signal initController with
  | none => rw [hg] at h1; exact absurd h1 (by simp)
  | some p =>
      rw [hg] at h1
      simp only [Option.map_some'] at h1 ⊢
      have hc := rotation_order_spec.2 initController p.1 p.2 (by rw [hg])
      have hp := Option.some.inj h1
      constructor
      · rw [hp]
        rfl
      · rw [hc]
        rfl

/-- C4: for any vehicle assignment of a controller with a nonzero total,
if lane `a` has strictly more vehicles than lane `b` then the green time
computed for `a` is at least the green time computed for `b`. -/
theorem green_time_monotone (c : TrafficSignalController) (a b : String) (va vb : Nat)
    (ha : (a, va) ∈ lanes_items c) (hb : (b, vb) ∈ lanes_items c)
    (ht : total_vehicles c ≠ 0) (hv : vb < va) :
    calculate_green_time vb (total_vehicles c) ≤
      calculate_green_time va (total_vehicles c) := by
  rw [calculate_green_time_eq, calculate_green_time_eq, if_neg ht, if_neg ht]
  apply Int.floor_le_floor
  have htq : (0 : ℚ) < (total_vehicles c : ℚ) := by
    exact_mod_cast Nat.pos_of_ne_zero ht
  have hvq : (vb : ℚ) ≤ (va : ℚ) := by exact_mod_cast hv.le
  have hdiv : (vb : ℚ) / (total_vehicles c : ℚ) ≤ (va : ℚ) / (total_vehicles c : ℚ) :=
    (div_le_div_right htq).mpr hvq
  have hmul : (vb : ℚ) / (total_vehicles c : ℚ) * 80 ≤
      (va : ℚ) / (total_vehicles c : ℚ) * 80 := by
    have h80 : (0 : ℚ) ≤ 80 := by norm_num
    exact mul_le_mul_of_nonneg_right hdiv h80
  exact max_le_max le_rfl (min_le_min hmul le_rfl)

/-- Witness for C4: North = 3 vehicles versus South = 1 vehicle, total 4. -/
theorem green_time_monotone_witness :
    calculate_green_time 1
        (total_vehicles (set_vehicle_count (set_vehicle_count initController "North" 3)
          "South" 1)) ≤
      calculate_green_time 3
        (total_vehicles (set_vehicle_count (set_vehicle_count initController "North" 3)
          "South" 1)) :=
  green_time_monotone _ "North" "South" 3 1 (by decide) (by decide) (by decide) (by decide)

/-- C5: `get_most_congested_lane` returns a pair whose count is the maximum
vehicle count over the four lanes, and the returned pair is the first entry
attaining that maximum in the dict iteration order North, South, East,
West. -/
theorem most_congested_lane_spec (c : TrafficSignalController) :
    (get_most_congested_lane c).2 = max_vehicles c ∧
    (lanes_items c).find? (fun p => p.2 = max_vehicles c) =
      some (get_most_congested_lane c) := by
  obtain ⟨n, s, e, w, cl, cc, sr⟩ := c
  by_cases h1 : n < s
  · by_cases h2 : s < e
    · by_cases h3 : e < w
      · have hr : get_most_congested_lane ⟨n, s, e, w, cl, cc, sr⟩ = ("West", w) := by
          simp [get_most_congested_lane, pyMaxBy, lanes_items, h1, h2, h3]
        have hM : max_vehicles ⟨n, s, e, w, cl, cc, sr⟩ = w := by
          simp only [max_vehicles]; omega
        have q1 : n ≠ w := by omega
        have q2 : s ≠ w := by omega
        have q3 : e ≠ w := by omega
        rw [hr, hM]
        exact ⟨rfl, by simp [lanes_items, List.find?, q1, q2, q3]⟩
      · have hr : get_most_congested_lane ⟨n, s, e, w, cl, cc, sr⟩ = ("East", e) := by
          simp [get_most_congested_lane, pyMaxBy, lanes_items, h1, h2, h3]
        have hM : max_vehicles ⟨n, s, e, w, cl, cc, sr⟩ = e := by
          simp only [max_vehicles]; omega
        have q1 : n ≠ e := by omega
        have q2 : s ≠ e := by omega
        rw [hr, hM]
        exact ⟨rfl, by simp [lanes_items, List.find?, q1, q2]⟩
    · by_cases h3 : s < w
      · have hr : get_most_congested_lane ⟨n, s, e, w, cl, cc, sr⟩ = ("West", w) := by
          simp [get_most_congested_lane, pyMaxBy, lanes_items, h1, h2, h3]
        have hM : max_vehicles ⟨n, s, e, w, cl, cc, sr⟩ = w := by
          simp only [max_vehicles]; omega
        have q1 : n ≠ w := by omega
        have q2 : s ≠ w := by omega
        have q3 : e ≠ w := by omega
        rw [hr, hM]
        exact ⟨rfl, by simp [lanes_items, List.find?, q1, q2, q3]⟩
      · have hr : get_most_congested_lane ⟨n, s, e, w, cl, cc, sr⟩ = ("South", s) := by
          simp [get_most_congested_lane, pyMaxBy, lanes_items, h1, h2, h3]
        have hM : max_vehicles ⟨n, s, e, w, cl, cc, sr⟩ = s := by
          simp only [max_vehicles]; omega
        have q1 : n ≠ s := by omega
        rw [hr, hM]
        exact ⟨rfl, by simp [lanes_items, List.find?, q1]⟩
  · by_cases h2 : n < e
    · by_cases h3 : e < w
      · have hr : get_most_congested_lane ⟨n, s, e, w, cl, cc, sr⟩ = ("West", w) := by
          simp [get_most_congested_lane, pyMaxBy, lanes_items, h1, h2, h3]
        have hM : max_vehicles ⟨n, s, e, w, cl, cc, sr⟩ = w := by
          simp only [max_vehicles]; omega
        have q1 : n ≠ w := by omega
        have q2 : s ≠ w := by omega
        have q3 : e ≠ w := by omega
        rw [hr, hM]
        exact ⟨rfl, by simp [lanes_items, List.find?, q1, q2, q3]⟩
      · have hr : get_most_congested_lane ⟨n, s, e, w, cl, cc, sr⟩ = ("East", e) := by
          simp [get_most_congested_lane, pyMaxBy, lanes_items, h1, h2, h3]
        have hM : max_vehicles ⟨n, s, e, w, cl, cc, sr⟩ = e := by
          simp only [max_vehicles]; omega
        have q1 : n ≠ e := by omega
        have q2 : s ≠ e := by omega
        rw [hr, hM]
        exact ⟨rfl, by simp [lanes_items, List.find?, q1, q2]⟩
    · by_cases h3 : n < w
      · have hr : get_most_congested_lane ⟨n, s, e, w, cl, cc, sr⟩ = ("West", w) := by
          simp [get_most_congested_lane, pyMaxBy, lanes_items, h1, h2, h3]
        have hM : max_vehicles ⟨n, s, e, w, cl, cc, sr⟩ = w := by
          simp only [max_vehicles]; omega
        have q1 : n ≠ w := by omega
        have q2 : s ≠ w := by omega
        have q3 : e ≠ w := by omega
        rw [hr, hM]
        exact ⟨rfl, by simp [lanes_items, List.find?, q1, q2, q3]⟩
      · have hr : get_most_congested_lane ⟨n, s, e, w, cl, cc, sr⟩ = ("North", n) := by
          simp [get_most_congested_lane, pyMaxBy, lanes_items, h1, h2, h3]
        have hM : max_vehicles ⟨n, s, e, w, cl, cc, sr⟩ = n := by
          simp only [max_vehicles]; omega
        rw [hr, hM]
        exact ⟨rfl, by simp [lanes_items, List.find?]⟩

/-- Any lane produced by `get_next_lane_of` is one of the four canonical
lanes. -/
lemma get_next_lane_of_mem (l l' : String) (h : get_next_lane_of l = some l') :
    l' ∈ lane_order := by
  rw [get_next_lane_of, Option.map_eq_some'] at h
  obtain ⟨i, _, hgd⟩ := h
  rw [← hgd]
  have hlen : lane_order.length = 4 := rfl
  rw [hlen]
  have h4 : (i + 1) % 4 = 0 ∨ (i + 1) % 4 = 1 ∨ (i + 1) % 4 = 2 ∨ (i + 1) % 4 = 3 := by
    omega
  rcases h4 with h | h | h | h <;> rw [h] <;> decide

/-- `set_vehicle_count` never touches `current_lane`. -/
lemma set_vehicle_count_current_lane (c : TrafficSignalController) (lane : String)
    (count : Int) : (set_vehicle_count c lane count).current_lane = c.current_lane := by
  unfold set_vehicle_count
  split_ifs <;> rfl

/-- `override_signal_for_emergency` never changes the emergency state. -/
lemma override_snd_emergency (s : System) :
    (override_signal_for_emergency s).2.emergency = s.emergency := by
  unfold override_signal_for_emergency
  split_ifs with h
  · cases hl : s.emergency.emergency_lane with
    | none => rfl
    | some l => rfl
  · rfl

/-- A valid step preserves the lane-validity invariant. -/
lemma validStep_lanesValid {s s' : System} (h : ValidStep s s') (hs : LanesValid s) :
    LanesValid s' := by
  obtain ⟨hcur, hem⟩ := hs
  cases h with
  | set_count lane count =>
      exact ⟨by rw [set_vehicle_count_current_lane]; exact hcur, hem⟩
  | advance c' r hadv =>
      rw [advance_signal, Option.map_eq_some'] at hadv
      obtain ⟨nl, hnl, hf⟩ := hadv
      obtain ⟨h1, _⟩ := Prod.mk.injEq .. |>.mp hf
      refine ⟨?_, hem⟩
      rw [← h1]
      exact get_next_lane_of_mem _ _ hnl
  | reset_op =>
      refine ⟨?_, hem⟩
      show ("North" : String) ∈ lane_order
      decide
  | detect lane vt hlane =>
      by_cases hv : vt ∈ EMERGENCY_TYPES
      · refine ⟨hcur, ?_⟩
        intro l hl
        simp only [detect_emergency_vehicle, if_pos hv] at hl
        rw [Option.some.inj hl] at hlane
        exact hlane
      · refine ⟨hcur, ?_⟩
        intro l hl
        simp only [detect_emergency_vehicle, if_neg hv] at hl
        exact hem l hl
  | override =>
      constructor
      · unfold override_signal_for_emergency
        split_ifs with h
        · cases hl : s.emergency.emergency_lane with
          | none => exact hcur
          | some l => exact hem l hl
        · exact hcur
      · rw [override_snd_emergency]
        exact hem
  | update_timer x =>
      refine ⟨hcur, ?_⟩
      intro l hl
      have hl' : (update_emergency_timer s.emergency x).emergency_lane = some l := hl
      unfold update_emergency_timer at hl'
      split_ifs at hl' with h1 h2
      · simp [clear_emergency] at hl'
      · exact hem l hl'
      · exact hem l hl'
  | clear =>
      refine ⟨hcur, ?_⟩
      intro l hl
      have hl' : (clear_emergency s.emergency).emergency_lane = some l := hl
      simp [clear_emergency] at hl'

/-- Every state reachable with canonical emergency lanes satisfies the
lane-validity invariant. -/
lemma reachableValid_lanesValid {s : System} (h : ReachableValid s) : LanesValid s := by
  unfold ReachableValid at h
  induction h with
  | refl => exact ⟨by decide, fun l hl => by simp [initSystem, initEmergency] at hl⟩
  | tail _ hstep ih => exact validStep_lanesValid hstep ih

/-- When the current lane is canonical, the reported signal state has
exactly one GREEN and three RED entries. -/
lemma count_green_of_mem {c : TrafficSignalController} (h : c.current_lane ∈ lane_order) :
    count_green (get_signal_state c) = 1 ∧ count_red (get_signal_state c) = 3 := by
  have h4 : c.current_lane = "North" ∨ c.current_lane = "East" ∨
      c.current_lane = "South" ∨ c.current_lane = "West" := by
    simpa [lane_order] using h
  rcases h4 with h | h | h | h <;>
    simp [count_green, count_red, get_signal_state, lanes_items, h]

/-- Every override duration in the type table is nonnegative. -/
lemma emergency_duration_nonneg (vt : String) : 0 ≤ emergency_duration vt := by
  unfold emergency_duration
  split_ifs <;> norm_num

/-- Any step (even with arbitrary arguments) preserves the emergency-timer
invariant. -/
lemma step_emergencyInv {s s' : System} (h : Step s s') (hs : EmergencyInv s.emergency) :
    EmergencyInv s'.emergency := by
  cases h with
  | set_count lane count => exact hs
  | advance c' r hadv => exact hs
  | reset_op => exact hs
  | detect lane vt =>
      show EmergencyInv (detect_emergency_vehicle s.emergency lane vt).2
      by_cases hv : vt ∈ EMERGENCY_TYPES
      · simp only [detect_emergency_vehicle, if_pos hv]
        exact ⟨fun _ => ⟨0, rfl, emergency_duration_nonneg vt⟩,
          fun hfalse => by simp at hfalse⟩
      · simp only [detect_emergency_vehicle, if_neg hv]
        exact hs
  | override =>
      rw [override_snd_emergency]
      exact hs
  | update_timer x =>
      show EmergencyInv (update_emergency_timer s.emergency x)
      unfold update_emergency_timer
      split_ifs with h1 h2
      · exact ⟨fun hfalse => by simp [clear_emergency] at hfalse,
          fun _ => by simp [clear_emergency]⟩
      · exact ⟨fun _ => ⟨x, rfl, by show x ≤ s.emergency.override_duration; omega⟩,
          fun hfalse => absurd hfalse (by simp [h1])⟩
      · exact hs
  | clear =>
      show EmergencyInv (clear_emergency s.emergency)
      exact ⟨fun hfalse => by simp [clear_emergency] at hfalse,
        fun _ => by simp [clear_emergency]⟩

/-- Every reachable state satisfies the emergency-timer invariant. -/
lemma reachable_emergencyInv {s : System} (h : Reachable s) :
    EmergencyInv s.emergency := by
  unfold Reachable at h
  induction h with
  | refl => exact ⟨fun hfalse => by simp [initSystem, initEmergency] at hfalse,
      fun _ => ⟨rfl, rfl, rfl⟩⟩
  | tail _ hstep ih => exact step_emergencyInv hstep ih

/-- C2 fails as stated: reporting an ambulance on the non-lane "Midway"
and applying the override is a reachable operation sequence after which
`get_signal_state` marks no lane GREEN at all. -/
theorem signal_invariant_cex :
    ¬ ∀ s : System, Reachable s →
        count_green (get_signal_state s.controller) = 1 := by
  intro hclaim
  have h1 : Step initSystem
      { initSystem with
        emergency := (detect_emergency_vehicle initSystem.emergency "Midway" "ambulance").2 } :=
    Step.detect initSystem "Midway" "ambulance"
  have h2 : Step
      { initSystem with
        emergency := (detect_emergency_vehicle initSystem.emergency "Midway" "ambulance").2 }
      (override_signal_for_emergency
        { initSystem with
          emergency := (detect_emergency_vehicle initSystem.emergency "Midway" "ambulance").2 }).2 :=
    Step.override _
  have hr : Reachable (override_signal_for_emergency
      { initSystem with
        emergency := (detect_emergency_vehicle initSystem.emergency "Midway" "ambulance").2 }).2 :=
    Relation.ReflTransGen.tail (Relation.ReflTransGen.tail Relation.ReflTransGen.refl h1) h2
  have hzero : count_green (get_signal_state
      (override_signal_for_emergency
        { initSystem with
          emergency := (detect_emergency_vehicle initSystem.emergency "Midway" "ambulance").2 }).2.controller) = 0 := by
    decide
  rw [hclaim _ hr] at hzero
  exact absurd hzero (by decide)

/-- C2 amended: in every state reachable while emergencies are only ever
reported on the four canonical lane names, `get_signal_state` marks
exactly one lane GREEN and the other three RED.  (As stated over arbitrary
lane arguments the claim is false, see the counterexample: an override to
a non-canonical lane yields zero GREEN lanes.) -/
theorem signal_invariant_valid_lanes (s : System) (h : ReachableValid s) :
    count_green (get_signal_state s.controller) = 1 ∧
    count_red (get_signal_state s.controller) = 3 :=
  count_green_of_mem (reachableValid_lanesValid h).1

/-- Witness for the amended C2 at the initial state. -/
theorem signal_invariant_valid_lanes_witness :
    count_green (get_signal_state initSystem.controller) = 1 ∧
    count_red (get_signal_state initSystem.controller) = 3 :=
  signal_invariant_valid_lanes initSystem Relation.ReflTransGen.refl

/-- C6: `detect_emergency_vehicle` returns `false` exactly on vehicle types
outside {ambulance, fire_truck, police}, leaving the emergency state fully
unchanged in that case; on success it activates the override, stores the
lane and type, zeroes the timer and loads the type-specific duration
(ambulance 30, fire_truck 40, police 25). -/
theorem detect_emergency_vehicle_spec (em : EmergencyController)
    (lane vehicle_type : String) :
    ((detect_emergency_vehicle em lane vehicle_type).1 = false ↔
      vehicle_type ∉ EMERGENCY_TYPES) ∧
    (vehicle_type ∉ EMERGENCY_TYPES →
      (detect_emergency_vehicle em lane vehicle_type).2 = em) ∧
    (vehicle_type ∈ EMERGENCY_TYPES →
      (detect_emergency_vehicle em lane vehicle_type).2 =
        { emergency_active := true, emergency_lane := some lane,
          emergency_type := some vehicle_type, emergency_start_time := some 0,
          override_duration := emergency_duration vehicle_type }) ∧
    emergency_duration "ambulance" = 30 ∧
    emergency_duration "fire_truck" = 40 ∧
    emergency_duration "police" = 25 := by
  refine ⟨?_, ?_, ?_, by decide, by decide, by decide⟩ <;>
    by_cases hv : vehicle_type ∈ EMERGENCY_TYPES <;>
      simp [detect_emergency_vehicle, hv]

/-- Witness for C6: a tractor is rejected without touching the state; a
fire truck is accepted with a 40-second override. -/
theorem detect_emergency_vehicle_spec_witness :
    (detect_emergency_vehicle initEmergency "North" "tractor").2 = initEmergency ∧
    (detect_emergency_vehicle initEmergency "East" "fire_truck").2.override_duration = 40 := by
  have h1 := detect_emergency_vehicle_spec initEmergency "North" "tractor"
  have h2 := detect_emergency_vehicle_spec initEmergency "East" "fire_truck"
  refine ⟨h1.2.1 (by decide), ?_⟩
  rw [h2.2.2.1 (by decide)]
  decide

/-- C7 fails as stated: `detect_emergency_vehicle` accepts the empty
string as a lane, after which the override is active yet
`override_signal_for_emergency` returns `None` (the guard
`not self.emergency_lane` treats `""` as falsy) and changes nothing. -/
theorem override_signal_cex :
    (detect_emergency_vehicle initEmergency "" "ambulance").2.emergency_active = true ∧
    (override_signal_for_emergency
      { controller := initController,
        emergency := (detect_emergency_vehicle initEmergency "" "ambulance").2 }).1 = none ∧
    (override_signal_for_emergency
      { controller := initController,
        emergency := (detect_emergency_vehicle initEmergency "" "ambulance").2 }).2 =
      { controller := initController,
        emergency := (detect_emergency_vehicle initEmergency "" "ambulance").2 } := by
  decide

/-- C7 amended: `override_signal_for_emergency` returns `None` iff no
emergency is active or the stored lane is falsy (`None` or the empty
string); when active with a non-empty stored lane it forces the wrapped
controller's `current_lane` to that lane and returns the controller's
signal state, leaving `cycle_counter`, all four vehicle counts and the
emergency state unchanged. -/
theorem override_signal_spec (s : System) :
    ((override_signal_for_emergency s).1 = none ↔
      (s.emergency.emergency_active = false ∨
        laneTruthy s.emergency.emergency_lane = false)) ∧
    (∀ l, s.emergency.emergency_active = true → s.emergency.emergency_lane = some l →
      l ≠ "" →
      (override_signal_for_emergency s).2.controller.current_lane = l ∧
      (override_signal_for_emergency s).1 =
        some (get_signal_state (override_signal_for_emergency s).2.controller) ∧
      (override_signal_for_emergency s).2.controller.cycle_counter =
        s.controller.cycle_counter ∧
      lanes_items (override_signal_for_emergency s).2.controller =
        lanes_items s.controller ∧
      (override_signal_for_emergency s).2.emergency = s.emergency) := by
  constructor
  · unfold override_signal_for_emergency
    split_ifs with h
    · obtain ⟨ha, ht⟩ := h
      cases hl : s.emergency.emergency_lane with
      | none => rw [hl] at ht; exact absurd ht (by decide)
      | some l =>
          constructor
          · intro hcontr
            exact absurd hcontr (by simp)
          · rintro (hfalse | hfalse)
            · rw [ha] at hfalse; exact absurd hfalse (by decide)
            · exfalso
              rw [hl] at ht
              rw [ht] at hfalse
              exact absurd hfalse (by decide)
    · rw [not_and_or] at h
      constructor
      · intro _
        rcases h with h | h
        · exact Or.inl (by revert h; cases s.emergency.emergency_active <;> simp)
        · exact Or.inr (by revert h; cases laneTruthy s.emergency.emergency_lane <;> simp)
      · intro _; rfl
  · intro l ha hl hne
    have ht : laneTruthy s.emergency.emergency_lane = true := by
      rw [hl]; simp [laneTruthy, hne]
    unfold override_signal_for_emergency
    rw [if_pos ⟨ha, ht⟩, hl]
    exact ⟨rfl, rfl, rfl, rfl, rfl⟩

/-- Witness for the amended C7: an ambulance on East forces East green. -/
theorem override_signal_spec_witness :
    (override_signal_for_emergency
      { controller := initController,
        emergency := (detect_emergency_vehicle initEmergency "East" "ambulance").2 }).2.controller.current_lane = "East" ∧
    (override_signal_for_emergency
      { controller := initController,
        emergency := (detect_emergency_vehicle initEmergency "East" "ambulance").2 }).2.controller.cycle_counter =
      initController.cycle_counter := by
  have h := (override_signal_spec
    { controller := initController,
      emergency := (detect_emergency_vehicle initEmergency "East" "ambulance").2 }).2
    "East" (by decide) (by decide) (by decide)
  exact ⟨h.1, h.2.2.1⟩

/-- C8 fails as stated: from the (reachable) initial state, where no
override is active, `update_emergency_timer 5` with `5 <` the current
override duration (30) leaves the override inactive, not active with
elapsed 5. -/
theorem emergency_timer_cex :
    (5 : Int) < initEmergency.override_duration ∧
    (update_emergency_timer initEmergency 5).emergency_active = false ∧
    (update_emergency_timer initEmergency 5).emergency_start_time = none := by
  decide

/-- C8 amended: in every reachable state an active override satisfies
`elapsedSeconds ≤ overrideDurationSeconds`; from any reachable state,
`update_emergency_timer e` with `e ≥` the duration leaves the override
inactive with all emergency fields cleared; and on an ACTIVE override
(the claim omitted this precondition), `update_emergency_timer e` with
`e <` the duration leaves it active with elapsed time `e`. -/
theorem emergency_timer_spec :
    (∀ s : System, Reachable s → s.emergency.emergency_active = true →
      ∃ t, s.emergency.emergency_start_time = some t ∧
        t ≤ s.emergency.override_duration) ∧
    (∀ s : System, Reachable s → ∀ x : Int, s.emergency.override_duration ≤ x →
      (update_emergency_timer s.emergency x).emergency_active = false ∧
      (update_emergency_timer s.emergency x).emergency_lane = none ∧
      (update_emergency_timer s.emergency x).emergency_type = none ∧
      (update_emergency_timer s.emergency x).emergency_start_time = none) ∧
    (∀ em : EmergencyController, ∀ x : Int, em.emergency_active = true →
      x < em.override_duration →
      (update_emergency_timer em x).emergency_active = true ∧
      (update_emergency_timer em x).emergency_start_time = some x) := by
  refine ⟨?_, ?_, ?_⟩
  · intro s hs ha
    exact (reachable_emergencyInv hs).1 ha
  · intro s hs x hx
    cases ha : s.emergency.emergency_active with
    | true => simp [update_emergency_timer, ha, hx, clear_emergency]
    | false =>
        have h2 := (reachable_emergencyInv hs).2 ha
        simp [update_emergency_timer, ha, h2.1, h2.2.1, h2.2.2]
  · intro em x ha hx
    simp [update_emergency_timer, ha, not_le.mpr hx]

/-- Witness for the amended C8: expiry at the default duration 30 from the
initial state, and a police override updated at 5 < 25 seconds. -/
theorem emergency_timer_spec_witness :
    (update_emergency_timer initSystem.emergency 30).emergency_active = false ∧
    (update_emergency_timer
      (detect_emergency_vehicle initEmergency "North" "police").2 5).emergency_active = true ∧
    (update_emergency_timer
      (detect_emergency_vehicle initEmergency "North" "police").2 5).emergency_start_time =
      some 5 := by
  refine ⟨(emergency_timer_spec.2.1 initSystem Relation.ReflTransGen.refl 30 (by decide)).1,
    ?_, ?_⟩
  · exact (emergency_timer_spec.2.2 _ 5 (by decide) (by decide)).1
  · exact (emergency_timer_spec.2.2 _ 5 (by decide) (by decide)).2

/-- C10 fails as stated: the empty string is accepted and stored as the
emergency lane, but the subsequent override does NOT assign it to the
controller's `current_lane` (the falsiness guard returns `None` instead),
so `current_lane` stays "North". -/
theorem lane_validation_cex :
    (detect_emergency_vehicle initEmergency "" "ambulance").1 = true ∧
    (detect_emergency_vehicle initEmergency "" "ambulance").2.emergency_lane = some "" ∧
    (override_signal_for_emergency
      { controller := initController,
        emergency := (detect_emergency_vehicle initEmergency "" "ambulance").2 }).2.controller.current_lane = "North" := by
  decide

/-- C10 amended: `detect_emergency_vehicle` performs no validation of its
lane argument: for every NON-EMPTY lane string (canonical or not) paired
with a valid vehicle type it returns `true` and stores that lane, and a
subsequent `override_signal_for_emergency` assigns the wrapped
controller's `current_lane` to that arbitrary value and returns a signal
state.  (For the empty string the detection still succeeds and stores it,
but the override is a no-op, see the counterexample.) -/
theorem lane_validation_spec (s : System) (lane vehicle_type : String)
    (hv : vehicle_type ∈ EMERGENCY_TYPES) (hne : lane ≠ "") :
    (detect_emergency_vehicle s.emergency lane vehicle_type).1 = true ∧
    (detect_emergency_vehicle s.emergency lane vehicle_type).2.emergency_lane =
      some lane ∧
    (override_signal_for_emergency
      { s with
        emergency := (detect_emergency_vehicle s.emergency lane vehicle_type).2 }).2.controller.current_lane =
      lane ∧
    (override_signal_for_emergency
      { s with
        emergency := (detect_emergency_vehicle s.emergency lane vehicle_type).2 }).1 ≠
      none := by
  have hd : detect_emergency_vehicle s.emergency lane vehicle_type =
      (true,
        { emergency_active := true, emergency_lane := some lane,
          emergency_type := some vehicle_type, emergency_start_time := some 0,
          override_duration := emergency_duration vehicle_type }) := by
    simp [detect_emergency_vehicle, hv]
  rw [hd]
  refine ⟨rfl, rfl, ?_, ?_⟩
  · unfold override_signal_for_emergency
    rw [if_pos (And.intro rfl
      (by show laneTruthy (some lane) = true; simp [laneTruthy, hne]))]
  · unfold override_signal_for_emergency
    rw [if_pos (And.intro rfl
      (by show laneTruthy (some lane) = true; simp [laneTruthy, hne]))]
    simp

/-- Witness for the amended C10: "Midway" is not a lane, yet an ambulance
reported there forces `current_lane = "Midway"`. -/
theorem lane_validation_spec_witness :
    (override_signal_for_emergency
      { initSystem with
        emergency := (detect_emergency_vehicle initSystem.emergency "Midway" "ambulance").2 }).2.controller.current_lane =
      "Midway" :=
  (lane_validation_spec initSystem "Midway" "ambulance" (by decide) (by decide)).2.2.1

/-- C9: constructing a `MultiJunctionController` with any integer argument
creates exactly `clamp(num_junctions, 2, 4)` junctions — above 4 clamps to
4, below 2 clamps to 2, in-range values are kept, never an error — and
junction `i` carries a fresh initial `TrafficSignalController` and the
canonical display name of index `i`. -/
theorem junction_registry_init_spec (n : Int) :
    (((MultiJunctionController.make n).junctions.length : Int) = max 2 (min n 4)) ∧
    (n < 2 → (MultiJunctionController.make n).junctions.length = 2) ∧
    (4 < n → (MultiJunctionController.make n).junctions.length = 4) ∧
    (2 ≤ n → n ≤ 4 → ((MultiJunctionController.make n).junctions.length : Int) = n) ∧
    (∀ i, (hi : i < (MultiJunctionController.make n).junctions.length) →
      (MultiJunctionController.make n).junctions[i] =
        { name := junction_names.getD i "", controller := initController,
          total_vehicles := 0, efficiency_score := 0, active := true }) := by
  have hlen : (MultiJunctionController.make n).junctions.length =
      (max 2 (min n 4)).toNat := by
    simp [MultiJunctionController.make]
  refine ⟨?_, ?_, ?_, ?_, ?_⟩
  · rw [hlen]; omega
  · intro h; rw [hlen]; omega
  · intro h; rw [hlen]; omega
  · intro h1 h2; rw [hlen]; omega
  · intro i hi
    simp [MultiJunctionController.make]

/-- Witness for C9: 6 clamps to 4 junctions, 1 clamps to 2, 3 is kept, and
junction 3 of the 4-junction registry is a fresh "Suburb" controller. -/
theorem junction_registry_init_spec_witness :
    (MultiJunctionController.make 6).junctions.length = 4 ∧
    (MultiJunctionController.make 1).junctions.length = 2 ∧
    ((MultiJunctionController.make 3).junctions.length : Int) = 3 ∧
    (MultiJunctionController.make 6).junctions.getD 3
        { name := "", controller := initController, total_vehicles := 0,
          efficiency_score := 0, active := true } =
      { name := "Suburb", controller := initController, total_vehicles := 0,
        efficiency_score := 0, active := true } := by
  have h6 := junction_registry_init_spec 6
  have h1 := junction_registry_init_spec 1
  have h3 := junction_registry_init_spec 3
  have hl6 : (MultiJunctionController.make 6).junctions.length = 4 :=
    h6.2.2.1 (by norm_num)
  refine ⟨hl6, h1.2.1 (by norm_num), h3.2.2.2.1 (by norm_num) (by norm_num), ?_⟩
  have hi : 3 < (MultiJunctionController.make 6).junctions.length := by omega
  rw [List.getD_eq_getElem _ _ hi, h6.2.2.2.2 3 hi]
  rfl

end TrafficSim
